import Mathlib

/-!
Shallow embedding of the chat orchestration code of `chat-ui/chat`
(`services.py`, backed by the record shapes of `models.py`).

External effects are made explicit:
* network outcomes (the HTTP responses of the MCP tool server, the local
  Ollama endpoint and the hosted OpenAI client) are inputs of the embedded
  functions;
* the database is a list of rows threaded through the functions;
  `objects.create` appends a row and `save()` on the freshly created row
  replaces it;
* Python exceptions are modelled with `Except`; a fallible `save()` is
  modelled by an `Option String` input holding the exception text when the
  save raises;
* wall-clock time is a discrete counter: every timestamping event in one
  call of `process_message` gets the next tick (`t`, `t+1`, `t+2`), so later
  events have strictly larger timestamps.
-/

/-- A JSON value, as produced by `response.json()`. -/
inductive JValue where
  | null
  | bool (b : Bool)
  | str (s : String)
  | num (n : Int)
  | arr (elems : List JValue)
  | obj (fields : List (String × JValue))

/-- Python exceptions that the embedded code can raise or catch. -/
inductive PyExn where
  | requestException (msg : String)
  | keyError (key : String)
  | typeError (msg : String)
deriving Repr, DecidableEq

/-- Python's `str(e)` on an exception (`str(KeyError(k))` shows the quoted key). -/
def exnStr : PyExn → String
  | .requestException m => m
  | .keyError k => "'" ++ k ++ "'"
  | .typeError m => m

/-- An HTTP response as seen through the `requests` library: status code,
`response.json()` (`none` when the body is unparseable, in which case the
library raises a `JSONDecodeError`, a subclass of `RequestException`), and
`response.text`. -/
structure HttpResponse where
  status_code : Nat
  json : Option JValue
  text : String

/-- The fixed text of the JSON-decode failure; every claim only needs it to
be non-empty. -/
def jsonDecodeErrorText : String := "Expecting value: line 1 column 1 (char 0)"

/-- `models.py` `ChatMessage` row: the columns touched by `services.py`. -/
structure ChatMessage where
  role : String
  content : String
  timestamp : Nat
  status : String
  model_used : String := ""
  tokens_used : Option Nat := none
  error_message : String := ""
deriving Repr, DecidableEq

/-- `models.py` `ChatSession` row: the columns touched by `services.py`.
`updated_at` carries `auto_now=True` (models.py line 12), so every `save()`
stamps it with the current time, overriding any assigned value. -/
structure ChatSession where
  title : String
  updated_at : Nat
deriving Repr, DecidableEq

/-- `models.py` `MCPOperation` row: the columns touched by `services.py`. -/
structure MCPOperation where
  operation_type : String
  parameters : JValue
  response : JValue := .obj []
  status : String
  duration_ms : Option Nat := none
  error_details : String := ""

/-- `models.py` `UserPreferences`: the fields read by `ChatService`.
`temperature` is a float in the source; it is passed through opaquely and
never inspected, so any linearly ordered numeric type represents it. -/
structure UserPreferences where
  preferred_ai_provider : String
  openai_model : String := "gpt-3.5-turbo"
  ollama_model : String := "llama2"
  max_tokens : Nat := 1000
  temperature : Rat := 7/10

/-- One `{"role": ..., "content": ...}` dict of the conversation context. -/
structure CtxMessage where
  role : String
  content : String
deriving Repr, DecidableEq

/-- The dict returned by `MCPClient.call_tool` (keys absent in a branch are
`none`). -/
structure ToolCallResult where
  success : Bool
  data : Option JValue := none
  error : Option String := none
  duration_ms : Option Nat := none

/-- `MCPClient.call_tool` (services.py lines 19-60). The network outcome of
`self.session.post` is the input `net` (`.error e` = a raised
`RequestException` with text `e`); `duration_ms` is the measured wall-clock
duration. A 200 response with unparseable body raises `JSONDecodeError`,
a `RequestException` subclass, hence is caught by the same handler. -/
def call_tool (net : Except String HttpResponse) (duration_ms : Nat) : ToolCallResult :=
  match net with
  | .ok response =>
    if response.status_code = 200 then
      match response.json with
      | some result =>
        { success := true, data := some result, duration_ms := some duration_ms }
      | none =>
        { success := false, error := some jsonDecodeErrorText,
          duration_ms := some duration_ms }
    else
      { success := false,
        error := some ("HTTP " ++ toString response.status_code ++ ": " ++ response.text),
        duration_ms := some duration_ms }
  | .error e =>
    { success := false, error := some e, duration_ms := some duration_ms }

/-- The dict returned by `AIService` generation methods (keys absent in a
branch keep their Python `.get` defaults). -/
structure GenResult where
  success : Bool
  content : String := ""
  model : String := ""
  tokens_used : Option Nat := none
  error : String := ""
deriving Repr, DecidableEq

/-- Outcome of the hosted client call `chat.completions.create`: either a
completion (first choice text plus optional usage) or a raised exception. -/
inductive OpenAICall where
  | ok (content : String) (tokens_used : Option Nat)
  | exn (msg : String)

/-- `AIService._generate_openai_response` (lines 97-119): the surrounding
`except Exception` catches every exception, so the result is total. -/
def generate_openai_response (call : OpenAICall) (model : String) : GenResult :=
  match call with
  | .ok content tokens =>
    { success := true, content := content, model := model, tokens_used := tokens }
  | .exn e => { success := false, error := e }

/-- Python subscription `v[key]`: a `KeyError` on a dict without the key, a
`TypeError` on a non-dict value (the exact `TypeError` text varies by value
shape and is irrelevant to every claim). -/
def jSubscript : JValue → String → Except PyExn JValue
  | .obj fields, key =>
    match fields.lookup key with
    | some v => .ok v
    | none => .error (.keyError key)
  | _, key => .error (.typeError ("value is not subscriptable by key " ++ key))

/-- The text stored when a non-string JSON value reaches a text column;
Python would store its string coercion, and no claim depends on the shape. -/
def jAsString : JValue → String
  | .str s => s
  | .num n => toString n
  | .bool b => if b then "True" else "False"
  | .null => "None"
  | .arr _ => "[...]"
  | .obj _ => "{...}"

/-- `AIService._generate_ollama_response` (lines 121-152). Only
`requests.exceptions.RequestException` is caught: the `KeyError`/`TypeError`
raised by `result['message']['content']` on a parseable 200 body of the
wrong shape propagates to the caller (`Except.error`). -/
def generate_ollama_response (net : Except String HttpResponse) (model : String) :
    Except PyExn GenResult :=
  match net with
  | .error e => .ok { success := false, error := e }
  | .ok response =>
    if response.status_code = 200 then
      match response.json with
      | none => .ok { success := false, error := jsonDecodeErrorText }
      | some result =>
        match jSubscript result "message" with
        | .error e => .error e
        | .ok msg =>
          match jSubscript msg "content" with
          | .error e => .error e
          | .ok c =>
            .ok { success := true, content := jAsString c, model := model,
                  tokens_used := none }
    else
      .ok { success := false,
            error := "Ollama HTTP " ++ toString response.status_code ++ ": " ++ response.text }

/-- The network environment of one `generate_response` call: the outcome each
backend would produce if invoked. -/
structure NetEnv where
  openai : OpenAICall
  ollama : Except String HttpResponse

/-- `AIService.generate_response` (lines 83-95). `openai_configured` models
`self.openai_client` being non-`None` (an `OPENAI_API_KEY` is set). -/
def generate_response (openai_configured : Bool) (net : NetEnv)
    (messages : List CtxMessage) (provider : String) (model : String)
    (max_tokens : Nat) (temperature : Rat) : Except PyExn GenResult :=
  if provider == "openai" && openai_configured then
    .ok (generate_openai_response net.openai model)
  else if provider == "ollama" then
    generate_ollama_response net.ollama model
  else
    .ok { success := false,
          error := "Provider " ++ provider ++ " not available or not configured" }

/-- The relation of `order_by('-timestamp')`: newer rows first. -/
def tsDesc (a b : ChatMessage) : Prop := b.timestamp ≤ a.timestamp

instance : DecidableRel tsDesc :=
  fun a b => inferInstanceAs (Decidable (b.timestamp ≤ a.timestamp))

instance : IsTotal ChatMessage tsDesc :=
  ⟨fun a b => by unfold tsDesc; exact Nat.le_total b.timestamp a.timestamp⟩

instance : IsTrans ChatMessage tsDesc :=
  ⟨fun _ _ _ hab hbc => Nat.le_trans hbc hab⟩

/-- The fixed system message of `_build_conversation_history` (lines 226-229). -/
def system_message : CtxMessage :=
  { role := "system",
    content := "You are a helpful AI assistant with access to a chat datastore via MCP tools. You can store and retrieve information using KV operations and query document collections." }

/-- Lines 231-236: `session.messages.filter(status='completed')
.order_by('-timestamp')[:20]`, then `reversed` to restore chronological
order. `msgs` is the session's message list in the database. -/
def recent_messages (msgs : List ChatMessage) : List ChatMessage :=
  ((List.insertionSort tsDesc (msgs.filter fun m => m.status == "completed")).take 20).reverse

/-- `ChatService._build_conversation_history` (lines 221-244). -/
def build_conversation_history (msgs : List ChatMessage) : List CtxMessage :=
  system_message :: (recent_messages msgs).map fun m => { role := m.role, content := m.content }

/-- `ChatService._get_model_for_provider` (lines 246-251). -/
def get_model_for_provider (user_preferences : UserPreferences) : String :=
  if user_preferences.preferred_ai_provider == "openai" then
    user_preferences.openai_model
  else
    user_preferences.ollama_model

/-- The environment of one `process_message` call: the exception (if any)
raised while reading the conversation history from the database, the network
outcomes of the backends, and the exceptions (if any) raised by
`assistant_msg.save()` inside the `try` block and by `session.save()`.
The `save()` inside the `except` handler is assumed not to raise. -/
structure PMEnv where
  history_exn : Option String
  net : NetEnv
  save_exn : Option String
  session_save_exn : Option String

/-- The observable result of `process_message`: the session's message rows
after the call, the session row after the call, and the returned message. -/
structure PMResult where
  messages : List ChatMessage
  session : ChatSession
  ret : ChatMessage
deriving Repr, DecidableEq

/-- Lines 213-219, the `except Exception` handler: the in-flight assistant
row `a` (whatever fields earlier code already set on it) is finalized with
the wrapped error text and status `error`, then saved. -/
def handle_processing_exception (prior : List ChatMessage) (user_msg a : ChatMessage)
    (session : ChatSession) (e : String) : PMResult :=
  let a1 : ChatMessage :=
    { a with content := "An error occurred while processing your message: " ++ e,
             error_message := e, status := "error" }
  { messages := prior ++ [user_msg, a1], session := session, ret := a1 }

/-- `ChatService.process_message` (lines 161-219). `prior` is the session's
message list before the call, `t` the clock tick of the user-message insert
(so the assistant insert gets `t+1` and `session.save()` runs at `t+2`).
Per `auto_now=True` on `updated_at` (models.py line 12), `session.save()`
stamps `updated_at` with the save-time tick, overriding the assignment of
line 206. -/
def process_message (prior : List ChatMessage) (session : ChatSession)
    (user_message : String) (user_preferences : UserPreferences)
    (openai_configured : Bool) (env : PMEnv) (t : Nat) : PMResult :=
  let user_msg : ChatMessage :=
    { role := "user", content := user_message, timestamp := t, status := "completed" }
  let assistant_msg : ChatMessage :=
    { role := "assistant", content := "", timestamp := t + 1, status := "processing" }
  match env.history_exn with
  | some e => handle_processing_exception prior user_msg assistant_msg session e
  | none =>
    let messages := build_conversation_history (prior ++ [user_msg, assistant_msg])
    match generate_response openai_configured env.net messages
        user_preferences.preferred_ai_provider
        (get_model_for_provider user_preferences)
        user_preferences.max_tokens user_preferences.temperature with
    | .error exn =>
      handle_processing_exception prior user_msg assistant_msg session (exnStr exn)
    | .ok ai_response =>
      let a1 : ChatMessage :=
        if ai_response.success then
          { assistant_msg with content := ai_response.content,
                               model_used := ai_response.model,
                               tokens_used := ai_response.tokens_used,
                               status := "completed" }
        else
          { assistant_msg with content := "Error generating response: " ++ ai_response.error,
                               error_message := ai_response.error,
                               status := "error" }
      match env.save_exn with
      | some e => handle_processing_exception prior user_msg a1 session e
      | none =>
        match env.session_save_exn with
        | some e => handle_processing_exception prior user_msg a1 session e
        | none =>
          let session1 : ChatSession :=
            { session with
                updated_at := t + 2,
                title :=
                  if session.title = "" then
                    if user_message.length > 50 then
                      user_message.take 50 ++ "..."
                    else user_message
                  else session.title }
          { messages := prior ++ [user_msg, a1], session := session1, ret := a1 }

/-- The observable result of `call_mcp_tool`: the `MCPOperation` rows after
the call and the returned operation. -/
structure MCPCallResult where
  operations : List MCPOperation
  ret : MCPOperation

/-- `ChatService.call_mcp_tool` (lines 253-286). `operations` is the
operation table before the call; `net` and `duration_ms` feed the bridge
call; `save_exn` is the exception (if any) raised by the `operation.save()`
inside the `try` block (the handler's `save()` is assumed not to raise).
The eager `objects.create` persists the row with status `'success'`. -/
def call_mcp_tool (operations : List MCPOperation) (session_id : String)
    (tool_name : String) (arguments : JValue) (net : Except String HttpResponse)
    (duration_ms : Nat) (save_exn : Option String) : MCPCallResult :=
  let operation : MCPOperation :=
    { operation_type := tool_name, parameters := arguments, status := "success" }
  let result := call_tool net duration_ms
  let op1 : MCPOperation :=
    { operation with response := result.data.getD (.obj []),
                     duration_ms := result.duration_ms }
  let op2 : MCPOperation :=
    if result.success then
      { op1 with status := "success" }
    else
      { op1 with status := "error", error_details := result.error.getD "Unknown error" }
  match save_exn with
  | some e =>
    let op3 : MCPOperation := { op2 with status := "error", error_details := e }
    { operations := operations ++ [op3], ret := op3 }
  | none => { operations := operations ++ [op2], ret := op2 }

/-! ## Helper lemmas -/

/-- A string starting with a non-empty prefix is non-empty. -/
theorem string_append_ne_empty (a b : String) (h : a ≠ "") : a ++ b ≠ "" := by
  intro hab
  apply h
  cases a with
  | mk da =>
    cases b with
    | mk db =>
      have hd : da ++ db = [] := congrArg String.data hab
      rcases List.append_eq_nil.mp hd with ⟨h1, _⟩
      simp [h1]

/-! ## Claims about the tool bridge -/

/-- A failed bridge call whose transport exception (if any) carries a
non-empty message reports a non-empty `error` string. -/
theorem call_tool_failure_has_error (net : Except String HttpResponse) (duration_ms : Nat)
    (hnet : ∀ e, net = .error e → e ≠ "") :
    (call_tool net duration_ms).success = false →
    ∃ e, (call_tool net duration_ms).error = some e ∧ e ≠ "" := by
  intro hf
  cases net with
  | error e => exact ⟨e, rfl, hnet e rfl⟩
  | ok response =>
    by_cases h200 : response.status_code = 200
    · cases hj : response.json with
      | some body => simp [call_tool, h200, hj] at hf
      | none =>
        exact ⟨jsonDecodeErrorText, by simp [call_tool, h200, hj], by decide⟩
    · refine ⟨"HTTP " ++ toString response.status_code ++ ": " ++ response.text,
        by simp [call_tool, h200], ?_⟩
      exact string_append_ne_empty _ _
        (string_append_ne_empty _ _ (string_append_ne_empty _ _ (by decide)))

/-- A failed bridge call carries no `data` key. -/
theorem call_tool_failure_no_data (net : Except String HttpResponse) (duration_ms : Nat) :
    (call_tool net duration_ms).success = false →
    (call_tool net duration_ms).data = none := by
  intro hf
  cases net with
  | error e => rfl
  | ok response =>
    by_cases h200 : response.status_code = 200
    · cases hj : response.json with
      | some body => simp [call_tool, h200, hj] at hf
      | none => simp [call_tool, h200, hj]
    · simp [call_tool, h200]

/-- C9: every `call_tool` result carries the measured duration; it is a
success exactly when the HTTP status is 200 with a parseable body, in which
case `data` is the parsed body; on any other status or transport exception
it is a failure with a non-empty descriptive error string. -/
theorem claim_C9_call_tool_result (net : Except String HttpResponse) (duration_ms : Nat)
    (hnet : ∀ e, net = .error e → e ≠ "") :
    (call_tool net duration_ms).duration_ms = some duration_ms ∧
    ((call_tool net duration_ms).success = true ↔
      ∃ response body, net = .ok response ∧ response.status_code = 200 ∧
        response.json = some body) ∧
    (∀ response body, net = .ok response → response.status_code = 200 →
      response.json = some body → (call_tool net duration_ms).data = some body) ∧
    ((call_tool net duration_ms).success = false →
      ∃ e, (call_tool net duration_ms).error = some e ∧ e ≠ "") := by
  refine ⟨?_, ?_, ?_, call_tool_failure_has_error net duration_ms hnet⟩
  · cases net with
    | error e => rfl
    | ok response =>
      by_cases h200 : response.status_code = 200
      · cases hj : response.json with
        | some body => simp [call_tool, h200, hj]
        | none => simp [call_tool, h200, hj]
      · simp [call_tool, h200]
  · cases net with
    | error e => simp [call_tool]
    | ok response =>
      by_cases h200 : response.status_code = 200
      · cases hj : response.json with
        | some body =>
          have hct : call_tool (.ok response) duration_ms
              = { success := true, data := some body, duration_ms := some duration_ms } := by
            simp [call_tool, h200, hj]
          rw [hct]
          exact ⟨fun _ => ⟨response, body, rfl, h200, hj⟩, fun _ => rfl⟩
        | none =>
          have hct : call_tool (.ok response) duration_ms
              = { success := false, error := some jsonDecodeErrorText,
                  duration_ms := some duration_ms } := by
            simp [call_tool, h200, hj]
          rw [hct]
          refine ⟨fun h => absurd h (by simp), ?_⟩
          rintro ⟨r, b, hr, h2, hb⟩
          cases hr
          rw [hj] at hb
          exact Option.noConfusion hb
      · have hct : call_tool (.ok response) duration_ms
            = { success := false,
                error := some ("HTTP " ++ toString response.status_code ++ ": " ++ response.text),
                duration_ms := some duration_ms } := by
          simp [call_tool, h200]
        rw [hct]
        refine ⟨fun h => absurd h (by simp), ?_⟩
        rintro ⟨r, b, hr, h2, hb⟩
        cases hr
        exact absurd h2 h200
  · intro r b hr h2 hb
    subst hr
    simp [call_tool, h2, hb]

/-- C9 witness: the theorem applied to a concrete transport failure. -/
theorem claim_C9_witness :
    (call_tool (Except.error "conn refused") 7).duration_ms = some 7 :=
  (claim_C9_call_tool_result (Except.error "conn refused") 7
    (by intro e he; injection he with h; rw [← h]; decide)).1

/-- C3: `call_mcp_tool` persists exactly one `MCPOperation` row, whose final
status is `success` iff the bridge reported success and no exception
occurred; on bridge failure the row has status `error`, non-empty
`error_details` and response equal to the empty map. -/
theorem claim_C3_tool_operation_row (operations : List MCPOperation)
    (session_id tool_name : String) (arguments : JValue)
    (net : Except String HttpResponse) (duration_ms : Nat) (save_exn : Option String)
    (hnet : ∀ e, net = .error e → e ≠ "")
    (hsave : ∀ s, save_exn = some s → s ≠ "") :
    (call_mcp_tool operations session_id tool_name arguments net duration_ms save_exn).operations
      = operations ++ [(call_mcp_tool operations session_id tool_name arguments net
          duration_ms save_exn).ret] ∧
    ((call_mcp_tool operations session_id tool_name arguments net duration_ms save_exn).ret.status
        = "success" ↔
      ((call_tool net duration_ms).success = true ∧ save_exn = none)) ∧
    ((call_tool net duration_ms).success = false →
      (call_mcp_tool operations session_id tool_name arguments net duration_ms save_exn).ret.status
          = "error" ∧
      (call_mcp_tool operations session_id tool_name arguments net duration_ms
          save_exn).ret.error_details ≠ "" ∧
      (call_mcp_tool operations session_id tool_name arguments net duration_ms
          save_exn).ret.response = JValue.obj []) := by
  have herr : (call_tool net duration_ms).success = false →
      ∃ e, (call_tool net duration_ms).error = some e ∧ e ≠ "" :=
    call_tool_failure_has_error net duration_ms hnet
  have hdata : (call_tool net duration_ms).success = false →
      (call_tool net duration_ms).data = none :=
    call_tool_failure_no_data net duration_ms
  cases save_exn with
  | some s =>
    cases hs : (call_tool net duration_ms).success with
    | true =>
      refine ⟨by simp [call_mcp_tool], ?_, ?_⟩
      · simp [call_mcp_tool, hs]
      · intro hf
        exact Bool.noConfusion hf
    | false =>
      refine ⟨by simp [call_mcp_tool], ?_, ?_⟩
      · simp [call_mcp_tool, hs]
      · intro _
        refine ⟨by simp [call_mcp_tool, hs], ?_, ?_⟩
        · simp only [call_mcp_tool, hs]
          exact hsave s rfl
        · simp only [call_mcp_tool, hs]
          simp [hdata hs]
  | none =>
    cases hs : (call_tool net duration_ms).success with
    | true =>
      refine ⟨by simp [call_mcp_tool], ?_, ?_⟩
      · simp [call_mcp_tool, hs]
      · intro hf
        exact Bool.noConfusion hf
    | false =>
      refine ⟨by simp [call_mcp_tool], ?_, ?_⟩
      · simp [call_mcp_tool, hs]
      · intro _
        refine ⟨by simp [call_mcp_tool, hs], ?_, ?_⟩
        · simp only [call_mcp_tool, hs]
          rcases herr hs with ⟨e, he, hne⟩
          simp [he]
          exact hne
        · simp only [call_mcp_tool, hs]
          simp [hdata hs]

/-- C3 witness: the theorem applied to a concrete unreachable-server call. -/
theorem claim_C3_witness :
    (call_mcp_tool [] "sid" "kv_get" (.obj [("key", .str "x")])
        (Except.error "conn refused") 5 none).ret.status = "error" ∧
    (call_mcp_tool [] "sid" "kv_get" (.obj [("key", .str "x")])
        (Except.error "conn refused") 5 none).ret.response = JValue.obj [] :=
  let h := claim_C3_tool_operation_row [] "sid" "kv_get" (.obj [("key", .str "x")])
    (Except.error "conn refused") 5 none
    (by intro e he; injection he with h2; rw [← h2]; decide)
    (by intro s hs; exact Option.noConfusion hs)
  ⟨(h.2.2 rfl).1, (h.2.2 rfl).2.2⟩

/-! ## Claims about the completion provider -/

/-- C8 counterexample: with the hosted provider selected and no credential
configured, the returned error string is
`"Provider openai not available or not configured"`, not the claimed
`"provider not available"`. -/
theorem claim_C8_counterexample :
    generate_response false { openai := .ok "hi" none, ollama := .error "conn refused" }
        [] "openai" "gpt-3.5-turbo" 1000 (7/10)
      = .ok { success := false,
              error := "Provider openai not available or not configured" } ∧
    "Provider openai not available or not configured" ≠ "provider not available" :=
  ⟨rfl, by decide⟩

/-- C8 (amended): with the hosted provider selected and no credential, the
result is the failure record with error
`"Provider openai not available or not configured"`, independent of every
network outcome (no backend call is attempted); the local path is taken
whenever the local provider is selected, whether or not a credential is
configured. -/
theorem claim_C8_provider_dispatch (net : NetEnv) (messages : List CtxMessage)
    (model : String) (max_tokens : Nat) (temperature : Rat) (openai_configured : Bool) :
    generate_response false net messages "openai" model max_tokens temperature
      = .ok { success := false,
              error := "Provider openai not available or not configured" } ∧
    generate_response openai_configured net messages "ollama" model max_tokens temperature
      = generate_ollama_response net.ollama model :=
  ⟨rfl, rfl⟩

/-- C6 counterexample: on the local path, a 200 response whose parseable
body lacks the `message` key raises an uncaught `KeyError` to the caller. -/
theorem claim_C6_counterexample :
    generate_response true
        { openai := .ok "hi" none,
          ollama := .ok { status_code := 200, json := some (.obj []), text := "{}" } }
        [] "ollama" "llama2" 1000 (7/10)
      = .error (.keyError "message") :=
  rfl

/-- C6 (amended): transport failures (raised request exception, non-2xx
status, unparseable 200 body) are caught on the local path and mapped to
failure results, and the hosted path never raises; however a parseable 200
body on the local path that lacks the expected `message`/`content` shape
raises an uncaught exception (see the counterexample). -/
theorem claim_C6_transport_failures_caught (openai_configured : Bool) (net : NetEnv)
    (messages : List CtxMessage) (model : String) (max_tokens : Nat) (temperature : Rat) :
    (∃ r, generate_response openai_configured net messages "openai" model max_tokens temperature
        = .ok r) ∧
    (∀ e, net.ollama = .error e →
      generate_response openai_configured net messages "ollama" model max_tokens temperature
        = .ok { success := false, error := e }) ∧
    (∀ response, net.ollama = .ok response → response.status_code ≠ 200 →
      generate_response openai_configured net messages "ollama" model max_tokens temperature
        = .ok { success := false,
                error := "Ollama HTTP " ++ toString response.status_code ++ ": "
                  ++ response.text }) ∧
    (∀ response, net.ollama = .ok response → response.status_code = 200 →
      response.json = none →
      generate_response openai_configured net messages "ollama" model max_tokens temperature
        = .ok { success := false, error := jsonDecodeErrorText }) := by
  refine ⟨?_, ?_, ?_, ?_⟩
  · cases openai_configured with
    | true => exact ⟨generate_openai_response net.openai model, rfl⟩
    | false =>
      exact ⟨{ success := false,
               error := "Provider openai not available or not configured" }, rfl⟩
  · intro e he
    show generate_ollama_response net.ollama model = _
    rw [he]
    rfl
  · intro response hr h200
    show generate_ollama_response net.ollama model = _
    rw [hr]
    simp [generate_ollama_response, h200]
  · intro response hr h200 hj
    show generate_ollama_response net.ollama model = _
    rw [hr]
    simp [generate_ollama_response, h200, hj]

/-- C6 witness: the amended theorem applied to a concrete transport failure
on the local path. -/
theorem claim_C6_witness :
    generate_response true { openai := .ok "hi" none, ollama := .error "conn refused" }
        [] "ollama" "llama2" 1000 (7/10)
      = .ok { success := false, error := "conn refused" } :=
  (claim_C6_transport_failures_caught true
    { openai := .ok "hi" none, ollama := .error "conn refused" }
    [] "llama2" 1000 (7/10)).2.1 "conn refused" rfl

/-- C8 has no hypothesis beyond universally quantified data, but we record a
concrete instance of the dispatch anyway, applied through the theorem. -/
theorem claim_C8_witness :
    generate_response false { openai := .ok "hi" none, ollama := .error "x" }
        [] "openai" "gpt-3.5-turbo" 1000 (7/10)
      = .ok { success := false,
              error := "Provider openai not available or not configured" } :=
  (claim_C8_provider_dispatch { openai := .ok "hi" none, ollama := .error "x" }
    [] "gpt-3.5-turbo" 1000 (7/10) true).1

/-! ## Claims about conversation-context assembly -/

/-- Every message selected into the recent-history window has status
`completed`. -/
theorem mem_recent_messages_completed {msgs : List ChatMessage} {m : ChatMessage}
    (hm : m ∈ recent_messages msgs) : m.status = "completed" := by
  unfold recent_messages at hm
  rw [List.mem_reverse] at hm
  have h1 : m ∈ List.insertionSort tsDesc (msgs.filter fun x => x.status == "completed") :=
    List.mem_of_mem_take hm
  have h2 : m ∈ msgs.filter fun x => x.status == "completed" :=
    (List.perm_insertionSort tsDesc _).mem_iff.mp h1
  have h3 := List.of_mem_filter h2
  simpa using h3

/-- The recent-history window never holds more than 20 messages. -/
theorem recent_messages_length_le (msgs : List ChatMessage) :
    (recent_messages msgs).length ≤ 20 := by
  unfold recent_messages
  rw [List.length_reverse, List.length_take]
  exact min_le_left _ _

/-- The recent-history window is in ascending timestamp order. -/
theorem recent_messages_chronological (msgs : List ChatMessage) :
    (recent_messages msgs).Pairwise (fun a b => a.timestamp ≤ b.timestamp) := by
  unfold recent_messages
  rw [List.pairwise_reverse]
  apply List.Pairwise.sublist (List.take_sublist _ _)
  exact List.sorted_insertionSort tsDesc _

/-- C2: the context handed to the completion provider is the fixed
system-role message first, then at most 20 messages, all with status
`completed` (hence no `processing`, `pending` or `error` message), in
ascending timestamp order. -/
theorem claim_C2_context_shape (msgs : List ChatMessage) :
    build_conversation_history msgs
      = system_message ::
          (recent_messages msgs).map (fun m => { role := m.role, content := m.content }) ∧
    system_message.role = "system" ∧
    (recent_messages msgs).length ≤ 20 ∧
    (∀ m ∈ recent_messages msgs, m.status = "completed") ∧
    (recent_messages msgs).Pairwise (fun a b => a.timestamp ≤ b.timestamp) :=
  ⟨rfl, rfl, recent_messages_length_le msgs, fun _ hm => mem_recent_messages_completed hm,
   recent_messages_chronological msgs⟩

/-- C2 witness: the theorem applied to a concrete one-message store. -/
theorem claim_C2_witness :
    (recent_messages
        [{ role := "user", content := "a", timestamp := 1, status := "completed" }]).length
      ≤ 20 ∧
    ({ role := "user", content := "a", timestamp := 1,
       status := "completed" } : ChatMessage).status = "completed" :=
  ⟨(claim_C2_context_shape
      [{ role := "user", content := "a", timestamp := 1, status := "completed" }]).2.2.1,
   (claim_C2_context_shape
      [{ role := "user", content := "a", timestamp := 1, status := "completed" }]).2.2.2.1
    { role := "user", content := "a", timestamp := 1, status := "completed" } (by decide)⟩

/-- A list whose strictly largest-timestamp element is `u` sorts (descending)
to `u` first. -/
theorem insertionSort_max_head (l : List ChatMessage) (u : ChatMessage) (hu : u ∈ l)
    (hmax : ∀ m ∈ l, m = u ∨ m.timestamp < u.timestamp) :
    ∃ tl, List.insertionSort tsDesc l = u :: tl := by
  obtain ⟨h, tl, hsort⟩ : ∃ h tl, List.insertionSort tsDesc l = h :: tl := by
    cases hcons : List.insertionSort tsDesc l with
    | nil =>
      have hmem : u ∈ List.insertionSort tsDesc l :=
        (List.perm_insertionSort tsDesc l).mem_iff.mpr hu
      rw [hcons] at hmem
      exact absurd hmem (List.not_mem_nil u)
    | cons h tl => exact ⟨h, tl, rfl⟩
  refine ⟨tl, ?_⟩
  rw [hsort]
  have hsorted := List.sorted_insertionSort tsDesc l
  rw [hsort] at hsorted
  have hmem_u : u ∈ h :: tl := by
    rw [← hsort]
    exact (List.perm_insertionSort tsDesc l).mem_iff.mpr hu
  have hut : u.timestamp ≤ h.timestamp := by
    cases hmem_u with
    | head => exact le_refl _
    | tail _ hmem => exact List.rel_of_sorted_cons hsorted u hmem
  have hmem_h : h ∈ l := by
    have hmem2 : h ∈ List.insertionSort tsDesc l := by
      rw [hsort]; exact List.mem_cons_self h tl
    exact (List.perm_insertionSort tsDesc l).mem_iff.mp hmem2
  rcases hmax h hmem_h with he | hlt
  · rw [he]
  · exact absurd hut (by omega)

/-- Appending a freshly completed message `u` (newer than every completed
message in the store) and an in-flight message `a` leaves the recent-history
window ending in `u`. -/
theorem recent_messages_user_last (prior : List ChatMessage) (u a : ChatMessage)
    (hu : u.status = "completed") (ha : a.status ≠ "completed")
    (hlt : ∀ m ∈ prior, m.status = "completed" → m.timestamp < u.timestamp) :
    ∃ X, recent_messages (prior ++ [u, a]) = X ++ [u] := by
  unfold recent_messages
  have hpu : (u.status == "completed") = true := by simp [hu]
  have hpa : (a.status == "completed") = false := by
    simp only [beq_eq_false_iff_ne]
    exact ha
  have hfil : (prior ++ [u, a]).filter (fun m => m.status == "completed")
      = prior.filter (fun m => m.status == "completed") ++ [u] := by
    rw [List.filter_append]
    congr 1
    simp [List.filter, hpu, hpa]
  rw [hfil]
  have hmem : u ∈ prior.filter (fun m => m.status == "completed") ++ [u] := by simp
  have hmax : ∀ m ∈ prior.filter (fun m => m.status == "completed") ++ [u],
      m = u ∨ m.timestamp < u.timestamp := by
    intro m hm
    rcases List.mem_append.mp hm with h1 | h2
    · right
      rcases List.mem_filter.mp h1 with ⟨hmem2, hp⟩
      exact hlt m hmem2 (by simpa using hp)
    · left
      simpa using h2
  obtain ⟨tl, hs⟩ := insertionSort_max_head _ u hmem hmax
  rw [hs]
  have htake : (u :: tl).take 20 = u :: tl.take 19 := rfl
  rw [htake, List.reverse_cons]
  exact ⟨(tl.take 19).reverse, rfl⟩

/-- C10: because the user message is persisted with status `completed`
before the context is assembled, the context of a `process_message` call
ends with exactly the new user utterance, and the in-flight `processing`
assistant placeholder is never part of the recent-history window. The
hypothesis states the database invariant that earlier rows have earlier
timestamps. -/
theorem claim_C10_context_ends_with_new_user (prior : List ChatMessage)
    (user_message : String) (t : Nat)
    (hprior : ∀ m ∈ prior, m.timestamp < t) :
    (build_conversation_history (prior ++
        [{ role := "user", content := user_message, timestamp := t, status := "completed" },
         { role := "assistant", content := "", timestamp := t + 1,
           status := "processing" }])).getLast?
      = some { role := "user", content := user_message } ∧
    ({ role := "assistant", content := "", timestamp := t + 1,
       status := "processing" } : ChatMessage)
      ∉ recent_messages (prior ++
        [{ role := "user", content := user_message, timestamp := t, status := "completed" },
         { role := "assistant", content := "", timestamp := t + 1,
           status := "processing" }]) := by
  constructor
  · obtain ⟨X, hX⟩ := recent_messages_user_last prior
      { role := "user", content := user_message, timestamp := t, status := "completed" }
      { role := "assistant", content := "", timestamp := t + 1, status := "processing" }
      rfl (by intro h; exact absurd h (by dsimp only; decide))
      (fun m hm _ => hprior m hm)
    unfold build_conversation_history
    rw [hX, List.map_append]
    rw [show (List.map (fun m => ({ role := m.role, content := m.content } : CtxMessage))
          [({ role := "user", content := user_message, timestamp := t,
              status := "completed" } : ChatMessage)])
        = [({ role := "user", content := user_message } : CtxMessage)] from rfl]
    rw [← List.cons_append]
    exact List.getLast?_concat _
  · intro hmem
    have hc := mem_recent_messages_completed hmem
    dsimp only at hc
    exact absurd hc (by decide)

/-- C10 witness: the theorem applied to a concrete one-message history. -/
theorem claim_C10_witness :
    (build_conversation_history
        ([{ role := "assistant", content := "old", timestamp := 1, status := "completed" }] ++
          [{ role := "user", content := "Hello", timestamp := 5, status := "completed" },
           { role := "assistant", content := "", timestamp := 6,
             status := "processing" }])).getLast?
      = some { role := "user", content := "Hello" } :=
  (claim_C10_context_ends_with_new_user
    [{ role := "assistant", content := "old", timestamp := 1, status := "completed" }]
    "Hello" 5 (by decide)).1

/-! ## Claims about message processing -/

/-- C1: for every environment — including an exception raised during
context assembly, a raising provider call, or a raising success-path
`save()` — `process_message` on non-empty input persists exactly one new
`user` message (with the input text, status `completed`) and exactly one
new `assistant` message, and the returned assistant message always carries
a terminal status, `completed` or `error`. -/
theorem claim_C1_two_messages_terminal_status (prior : List ChatMessage)
    (session : ChatSession) (user_message : String) (prefs : UserPreferences)
    (openai_configured : Bool) (env : PMEnv) (t : Nat)
    (hne : user_message ≠ "") :
    ∃ a : ChatMessage,
      (process_message prior session user_message prefs openai_configured env t).messages
        = prior ++ [{ role := "user", content := user_message, timestamp := t,
                      status := "completed" }, a] ∧
      (process_message prior session user_message prefs openai_configured env t).ret = a ∧
      a.role = "assistant" ∧
      (a.status = "completed" ∨ a.status = "error") := by
  rcases env with ⟨hx, net, sx, ssx⟩
  cases hx with
  | some e => exact ⟨_, rfl, rfl, rfl, Or.inr rfl⟩
  | none =>
    unfold process_message
    dsimp only
    split
    · exact ⟨_, rfl, rfl, rfl, Or.inr rfl⟩
    · rename_i ai heq
      cases hsucc : ai.success with
      | true =>
        cases sx with
        | some e => exact ⟨_, rfl, rfl, rfl, Or.inr rfl⟩
        | none =>
          cases ssx with
          | some e => exact ⟨_, rfl, rfl, rfl, Or.inr rfl⟩
          | none => exact ⟨_, rfl, rfl, rfl, Or.inl rfl⟩
      | false =>
        cases sx with
        | some e => exact ⟨_, rfl, rfl, rfl, Or.inr rfl⟩
        | none =>
          cases ssx with
          | some e => exact ⟨_, rfl, rfl, rfl, Or.inr rfl⟩
          | none => exact ⟨_, rfl, rfl, rfl, Or.inr rfl⟩

/-- C1 witness: the theorem applied to a concrete failing-provider run. -/
theorem claim_C1_witness :
    ∃ a : ChatMessage,
      (process_message [] { title := "", updated_at := 0 } "Hello"
          { preferred_ai_provider := "ollama" } true
          { history_exn := none,
            net := { openai := .ok "hi" none, ollama := .error "conn refused" },
            save_exn := none, session_save_exn := none } 0).messages
        = [] ++ [{ role := "user", content := "Hello", timestamp := 0,
                   status := "completed" }, a] ∧
      (process_message [] { title := "", updated_at := 0 } "Hello"
          { preferred_ai_provider := "ollama" } true
          { history_exn := none,
            net := { openai := .ok "hi" none, ollama := .error "conn refused" },
            save_exn := none, session_save_exn := none } 0).ret = a ∧
      a.role = "assistant" ∧
      (a.status = "completed" ∨ a.status = "error") :=
  claim_C1_two_messages_terminal_status _ _ _ _ _ _ _ (by decide)

/-- C4: when the provider call returns a failure result (no exception), the
returned assistant message has status `error`, content
`"Error generating response: "` followed by the provider's error text, and
`error_message` equal to that text. -/
theorem claim_C4_provider_failure_message (prior : List ChatMessage)
    (session : ChatSession) (user_message : String) (prefs : UserPreferences)
    (openai_configured : Bool) (net : NetEnv) (t : Nat) (r : GenResult)
    (hgen : generate_response openai_configured net
        (build_conversation_history (prior ++
          [{ role := "user", content := user_message, timestamp := t, status := "completed" },
           { role := "assistant", content := "", timestamp := t + 1, status := "processing" }]))
        prefs.preferred_ai_provider (get_model_for_provider prefs)
        prefs.max_tokens prefs.temperature = .ok r)
    (hfail : r.success = false) :
    (process_message prior session user_message prefs openai_configured
        { history_exn := none, net := net, save_exn := none,
          session_save_exn := none } t).ret.status = "error" ∧
    (process_message prior session user_message prefs openai_configured
        { history_exn := none, net := net, save_exn := none,
          session_save_exn := none } t).ret.content
      = "Error generating response: " ++ r.error ∧
    (process_message prior session user_message prefs openai_configured
        { history_exn := none, net := net, save_exn := none,
          session_save_exn := none } t).ret.error_message = r.error := by
  unfold process_message
  dsimp only
  rw [hgen]
  dsimp only
  rw [hfail]
  exact ⟨rfl, rfl, rfl⟩

/-- C4 witness: the theorem applied to a concrete transport failure of the
local provider. -/
theorem claim_C4_witness :
    (process_message [] { title := "", updated_at := 0 } "Hello"
        { preferred_ai_provider := "ollama" } true
        { history_exn := none,
          net := { openai := .ok "hi" none, ollama := .error "conn refused" },
          save_exn := none, session_save_exn := none } 0).ret.status = "error" ∧
    (process_message [] { title := "", updated_at := 0 } "Hello"
        { preferred_ai_provider := "ollama" } true
        { history_exn := none,
          net := { openai := .ok "hi" none, ollama := .error "conn refused" },
          save_exn := none, session_save_exn := none } 0).ret.content
      = "Error generating response: conn refused" :=
  let h := claim_C4_provider_failure_message [] { title := "", updated_at := 0 } "Hello"
    { preferred_ai_provider := "ollama" } true
    { openai := .ok "hi" none, ollama := .error "conn refused" } 0
    { success := false, error := "conn refused" } rfl rfl
  ⟨h.1, h.2.1⟩

/-- C7: a non-empty session title is never changed by `process_message`
(under any environment); an empty title is set, on a run that reaches the
session update, to the user text truncated to 50 characters plus an
ellipsis when longer than 50 characters, and to the full text otherwise;
and under every environment the title is either left unchanged or — only
when it was previously empty — set to exactly that truncation of the user
text, never to anything else. -/
theorem claim_C7_title_behavior (prior : List ChatMessage) (session : ChatSession)
    (user_message : String) (prefs : UserPreferences) (openai_configured : Bool) (t : Nat) :
    (∀ env, session.title ≠ "" →
      (process_message prior session user_message prefs openai_configured env t).session.title
        = session.title) ∧
    (∀ net r, session.title = "" →
      generate_response openai_configured net
          (build_conversation_history (prior ++
            [{ role := "user", content := user_message, timestamp := t, status := "completed" },
             { role := "assistant", content := "", timestamp := t + 1, status := "processing" }]))
          prefs.preferred_ai_provider (get_model_for_provider prefs)
          prefs.max_tokens prefs.temperature = .ok r →
      (process_message prior session user_message prefs openai_configured
          { history_exn := none, net := net, save_exn := none,
            session_save_exn := none } t).session.title
        = if user_message.length > 50 then user_message.take 50 ++ "..."
          else user_message) ∧
    (∀ env,
      (process_message prior session user_message prefs openai_configured env t).session.title
          = session.title ∨
      (session.title = "" ∧
        (process_message prior session user_message prefs openai_configured env t).session.title
          = if user_message.length > 50 then user_message.take 50 ++ "..."
            else user_message)) := by
  refine ⟨?_, ?_, ?_⟩
  · intro env h
    rcases env with ⟨hx, net, sx, ssx⟩
    cases hx with
    | some e => rfl
    | none =>
      unfold process_message
      dsimp only
      split
      · rfl
      · rename_i ai heq
        cases hsucc : ai.success with
        | true =>
          cases sx with
          | some e => rfl
          | none =>
            cases ssx with
            | some e => rfl
            | none => exact if_neg h
        | false =>
          cases sx with
          | some e => rfl
          | none =>
            cases ssx with
            | some e => rfl
            | none => exact if_neg h
  · intro net r h hgen
    unfold process_message
    dsimp only
    rw [hgen]
    dsimp only
    exact if_pos h
  · intro env
    rcases env with ⟨hx, net, sx, ssx⟩
    cases hx with
    | some e => exact Or.inl rfl
    | none =>
      unfold process_message
      dsimp only
      split
      · exact Or.inl rfl
      · rename_i ai heq
        by_cases ht : session.title = ""
        all_goals cases hsucc : ai.success
        all_goals cases sx
        all_goals try exact Or.inl rfl
        all_goals cases ssx
        all_goals try exact Or.inl rfl
        all_goals first
          | exact Or.inr ⟨ht, if_pos ht⟩
          | exact Or.inl (if_neg ht)

/-- C7 witness: the theorem applied to an empty-title and a non-empty-title
concrete run. -/
theorem claim_C7_witness :
    (process_message [] { title := "", updated_at := 0 } "Hi"
        { preferred_ai_provider := "ollama" } true
        { history_exn := none, net := { openai := .ok "hi" none, ollama := .error "x" },
          save_exn := none, session_save_exn := none } 0).session.title = "Hi" ∧
    (process_message [] { title := "Existing", updated_at := 0 } "Hi"
        { preferred_ai_provider := "ollama" } true
        { history_exn := none, net := { openai := .ok "hi" none, ollama := .error "x" },
          save_exn := none, session_save_exn := none } 0).session.title = "Existing" := by
  constructor
  · have h := (claim_C7_title_behavior [] { title := "", updated_at := 0 } "Hi"
      { preferred_ai_provider := "ollama" } true 0).2.1
      { openai := .ok "hi" none, ollama := .error "x" }
      { success := false, error := "x" } rfl rfl
    rw [h]
    decide
  · exact (claim_C7_title_behavior [] { title := "Existing", updated_at := 0 } "Hi"
      { preferred_ai_provider := "ollama" } true 0).1
      { history_exn := none, net := { openai := .ok "hi" none, ollama := .error "x" },
        save_exn := none, session_save_exn := none } (by decide)

/-- C5: a fully successful concrete run in which the session row is saved
one clock tick after the assistant message was created. Because
`updated_at` has `auto_now=True` (models.py line 12), `session.save()`
stamps the save-time tick (12), not the assistant message's timestamp (11):
the assignment of services.py line 206 is overridden, so the persisted
`updated_at` differs from the assistant message's timestamp. -/
theorem claim_C5_updated_at_is_save_time :
    (process_message [] { title := "", updated_at := 0 } "Hello"
        { preferred_ai_provider := "openai" } true
        { history_exn := none,
          net := { openai := .ok "hi there" (some 5), ollama := .error "x" },
          save_exn := none, session_save_exn := none } 10).ret.status = "completed" ∧
    (process_message [] { title := "", updated_at := 0 } "Hello"
        { preferred_ai_provider := "openai" } true
        { history_exn := none,
          net := { openai := .ok "hi there" (some 5), ollama := .error "x" },
          save_exn := none, session_save_exn := none } 10).ret.timestamp = 11 ∧
    (process_message [] { title := "", updated_at := 0 } "Hello"
        { preferred_ai_provider := "openai" } true
        { history_exn := none,
          net := { openai := .ok "hi there" (some 5), ollama := .error "x" },
          save_exn := none, session_save_exn := none } 10).session.updated_at = 12 ∧
    (process_message [] { title := "", updated_at := 0 } "Hello"
        { preferred_ai_provider := "openai" } true
        { history_exn := none,
          net := { openai := .ok "hi there" (some 5), ollama := .error "x" },
          save_exn := none, session_save_exn := none } 10).session.updated_at
      ≠ (process_message [] { title := "", updated_at := 0 } "Hello"
          { preferred_ai_provider := "openai" } true
          { history_exn := none,
            net := { openai := .ok "hi there" (some 5), ollama := .error "x" },
            save_exn := none, session_save_exn := none } 10).ret.timestamp := by
  refine ⟨rfl, rfl, rfl, ?_⟩
  decide
